import Mathlib

/-!
Shallow embedding of the Unilever dashboard pipeline (src/Unilever.py):
the record fetcher (download_kobo_data and the guard around it), the
flattening steps for the Sondage and GPS columns and the submission
timestamp, the date filter and the categorical isin filters, and the
analytics block (row count and total price).  Machine floats are modelled
as rationals; pandas timestamps are integer nanoseconds since the epoch;
a missing cell (NaN) is modelled as Option.none.
-/

namespace Unilever

/-- Python scalar-or-list value as it appears in a pandas column produced
by json_normalize: a string, a number, or a list of such values. -/
inductive PyVal where
  | str (s : String)
  | num (q : ℚ)
  | list (xs : List PyVal)

/-- Python str.join with separator ", ", as used on line 74 of the source
to stringify a list-valued Sondage cell. -/
def join_comma : List String → String
  | [] => ""
  | [x] => x
  | x :: xs => x ++ ", " ++ join_comma xs

mutual

/-- Python str applied to one PyVal.  Rationals are rendered with
toString; a nested list is stringified as a whole, matching the code,
which never flattens recursively. -/
def pyStr : PyVal → String
  | .str s => s
  | .num q => toString q
  | .list xs => "[" ++ pyStrList xs ++ "]"

/-- Comma-separated rendering of the elements of a nested list value. -/
def pyStrList : List PyVal → String
  | [] => ""
  | [v] => pyStr v
  | v :: vs => pyStr v ++ ", " ++ pyStrList vs

end

/-- Value of a decimal digit character, if it is one. -/
def digit? (c : Char) : Option ℕ :=
  if c.isDigit then some (c.toNat - 48) else none

/-- Splits a character list at every occurrence of sep, keeping empty
pieces: Python str.split with an explicit one-character separator, as in
line 80 of the source. -/
def split_char (sep : Char) : List Char → List (List Char)
  | [] => [[]]
  | c :: cs =>
    if c = sep then [] :: split_char sep cs
    else
      match split_char sep cs with
      | [] => [[c]]
      | t :: ts => (c :: t) :: ts

/-- Python s.split applied with the single-space separator. -/
def py_split_space (s : String) : List String :=
  (split_char ' ' s.toList).map (fun cs => String.mk cs)

/-- Parses a nonempty all-digit character list as a natural number. -/
def parse_digits : List Char → Option ℕ
  | [] => none
  | cs =>
    if cs.all Char.isDigit then
      some (cs.foldl (fun a c => 10 * a + (c.toNat - 48)) 0)
    else none

/-- Parses a possibly empty all-digit character list, empty meaning 0. -/
def parse_digits0 (cs : List Char) : Option ℕ :=
  if cs.all Char.isDigit then
    some (cs.foldl (fun a c => 10 * a + (c.toNat - 48)) 0)
  else none

/-- Python float conversion restricted to plain decimal literals: an
optional sign, digits, at most one decimal point, no exponent and no
surrounding whitespace.  This is the shape of every numeric token this
pipeline meets; every string rejected here is also rejected by Python. -/
def py_float? (s : String) : Option ℚ :=
  let core : List Char → Option ℚ := fun cs =>
    match split_char '.' cs with
    | [ip] => (parse_digits ip).map (fun n => (n : ℚ))
    | [ip, fp] =>
      if ip.isEmpty && fp.isEmpty then none
      else do
        let i ← parse_digits0 ip
        let f ← parse_digits0 fp
        pure ((i : ℚ) + (f : ℚ) / ((10 : ℚ) ^ fp.length))
    | _ => none
  match s.toList with
  | '-' :: rest => (core rest).map Neg.neg
  | '+' :: rest => core rest
  | cs => core cs

/-- pandas to_numeric with errors set to coerce, applied to one cell of
the Sondage_Transformed column (line 120 of the source): numbers pass
through, strings are parsed as floats, anything unparseable becomes NaN
(here none). -/
def to_numeric_coerce : Option PyVal → Option ℚ
  | none => none
  | some (.num q) => some q
  | some (.str s) => py_float? s
  | some (.list _) => none

/-- The Sondage cell transform of lines 73-76 of the source: a list value
is joined into one comma-separated string; any other value, missing cells
included, passes through unchanged.  The column is never split. -/
def sondage_transform : Option PyVal → Option PyVal
  | some (.list xs) => some (.str (join_comma (xs.map pyStr)))
  | v => v

/-- Tokenisation of every GPS cell (line 80 of the source). -/
def token_rows (col : List String) : List (List String) :=
  col.map py_split_space

/-- Number of columns produced by str.split with expand, which is the
maximum token count over all rows. -/
def expand_width (col : List String) : ℕ :=
  ((token_rows col).map List.length).foldr max 0

/-- Pads one token row with missing cells up to the expanded width. -/
def pad_row (w : ℕ) (ts : List String) : List (Option String) :=
  ts.map some ++ List.replicate (w - ts.length) none

/-- The DataFrame produced by str.split with expand on the GPS column:
one row of tokens per cell, short rows padded with missing cells. -/
def gps_split (col : List String) : List (List (Option String)) :=
  (token_rows col).map (pad_row (expand_width col))

/-- astype float on one cell: a missing cell becomes NaN, a token that
does not parse as a float raises ValueError (modelled as Except.error). -/
def astype_float_cell : Option String → Except String (Option ℚ)
  | none => .ok none
  | some t =>
    match py_float? t with
    | some q => .ok (some q)
    | none => .error ("could not convert string to float: " ++ t)

/-- astype float over one row of the expanded GPS frame. -/
def astype_float_row : List (Option String) → Except String (List (Option ℚ))
  | [] => .ok []
  | c :: cs => do
    let v ← astype_float_cell c
    let vs ← astype_float_row cs
    pure (v :: vs)

/-- astype float over the whole expanded GPS frame. -/
def astype_float : List (List (Option String)) → Except String (List (List (Option ℚ)))
  | [] => .ok []
  | r :: rs => do
    let v ← astype_float_row r
    let vs ← astype_float rs
    pure (v :: vs)

/-- Packs an expanded row of exactly four cells into the four GPS columns
Latitude, Longitude, Altitude, Other. -/
def row4 : List (Option ℚ) → Option ℚ × Option ℚ × Option ℚ × Option ℚ
  | [a, b, c, d] => (a, b, c, d)
  | _ => (none, none, none, none)

/-- Line 81 of the source: the split frame is converted with astype float
(which raises on any non-numeric token) and then assigned to the four
columns Latitude, Longitude, Altitude, Other; pandas raises when the
split frame does not have exactly four columns. -/
def gps_assign (col : List String) :
    Except String (List (Option ℚ × Option ℚ × Option ℚ × Option ℚ)) := do
  let vals ← astype_float (gps_split col)
  if expand_width col = 4 then pure (vals.map row4)
  else .error "Columns must be same length as key"

/-- Nanoseconds per second, the resolution of pandas timestamps. -/
def ns_per_second : Int := 1000000000

/-- Nanoseconds per calendar day. -/
def ns_per_day : Int := 86400 * ns_per_second

/-- Gregorian leap-year test. -/
def is_leap (y : ℕ) : Bool :=
  (y % 4 = 0 && y % 100 != 0) || y % 400 = 0

/-- Number of days in a month of the proleptic Gregorian calendar. -/
def days_in_month (y m : ℕ) : ℕ :=
  if m = 2 then (if is_leap y then 29 else 28)
  else if m = 4 || m = 6 || m = 9 || m = 11 then 30
  else 31

/-- Days between the civil date y-m-d and 1970-01-01 (the standard
days-from-civil computation over the proleptic Gregorian calendar). -/
def days_from_civil (y m d : ℕ) : Int :=
  let yi : Int := if m ≤ 2 then (y : Int) - 1 else (y : Int)
  let era : Int := yi.fdiv 400
  let yoe : Int := yi - era * 400
  let mp : Int := ((m : Int) + 9) % 12
  let doy : Int := (153 * mp + 2).fdiv 5 + (d : Int) - 1
  let doe : Int := yoe * 365 + yoe.fdiv 4 - yoe.fdiv 100 + doy
  era * 146097 + doe - 719468

/-- Two decimal digit characters as a natural number. -/
def parse2 (a b : Char) : Option ℕ := do
  let x ← digit? a
  let y ← digit? b
  pure (10 * x + y)

/-- Four decimal digit characters as a natural number. -/
def parse4 (a b c d : Char) : Option ℕ := do
  let x ← parse2 a b
  let y ← parse2 c d
  pure (100 * x + y)

/-- pandas to_datetime on one cell, restricted to seconds-resolution ISO
8601 (year-month-day, a T or space separator, hour:minute:second), which
is the format of Kobo submission times; the result is epoch nanoseconds. -/
def parse_timestamp (s : String) : Option Int :=
  match s.toList with
  | [y1, y2, y3, y4, '-', a1, a2, '-', b1, b2, sep, h1, h2, ':', m1, m2, ':', s1, s2] =>
    if sep = 'T' || sep = ' ' then do
      let y ← parse4 y1 y2 y3 y4
      let mo ← parse2 a1 a2
      let d ← parse2 b1 b2
      let h ← parse2 h1 h2
      let mi ← parse2 m1 m2
      let sec ← parse2 s1 s2
      if 1 ≤ mo ∧ mo ≤ 12 ∧ 1 ≤ d ∧ d ≤ days_in_month y mo ∧ h ≤ 23 ∧ mi ≤ 59 ∧ sec ≤ 59 then
        some ((days_from_civil y mo d * 86400 + (h : Int) * 3600 + (mi : Int) * 60 + (sec : Int)) * ns_per_second)
      else none
    else none
  | _ => none

/-- pandas to_datetime over the submission time column (line 84 of the
source) with the default errors setting, which is raise: the first
unparseable entry aborts the whole conversion with that entry. -/
def to_datetime_col : List String → Except String (List Int)
  | [] => .ok []
  | s :: rest =>
    match parse_timestamp s with
    | some t => (to_datetime_col rest).map (fun ts => t :: ts)
    | none => .error s

/-- One flattened row restricted to the fields the filters and the
analytics block read: the parsed submission time and the four filterable
string columns, plus the transformed Sondage value. -/
structure FlatRow where
  time : Int
  province : Option String
  commune : Option String
  adresse : Option String
  nameAgent : Option String
  sondageTransformed : Option PyVal

/-- Line 92 of the source: the end date plus one day minus one second,
the upper bound actually used by the date filter. -/
def date2_upper (d2 : Int) : Int := d2 + ns_per_day - ns_per_second

/-- The spec notion of the last instant of the day that starts at d2, at
the nanosecond resolution of pandas timestamps. -/
def end_of_day (d2 : Int) : Int := d2 + ns_per_day - 1

/-- Lines 95-98 of the source: boolean-mask filter keeping rows whose
submission time lies between d1 and the expanded upper bound. -/
def date_filter (rows : List FlatRow) (d1 d2 : Int) : List FlatRow :=
  rows.filter fun r => decide (d1 ≤ r.time) && decide (r.time ≤ date2_upper d2)

/-- Lines 109-111 of the source, one iteration: an empty selection leaves
the frame unchanged; a non-empty selection keeps the rows whose value for
the column is one of the selected values.  A missing value is never a
member of the selection. -/
def isin_filter (rows : List FlatRow) (get : FlatRow → Option String)
    (sel : List String) : List FlatRow :=
  match sel with
  | [] => rows
  | _ :: _ =>
    rows.filter fun r =>
      match get r with
      | some v => decide (v ∈ sel)
      | none => false

/-- Lines 109-111 of the source: the filters are applied in sequence,
each one narrowing the frame produced by the previous one. -/
def apply_categorical_filters (rows : List FlatRow)
    (fs : List ((FlatRow → Option String) × List String)) : List FlatRow :=
  fs.foldl (fun acc f => isin_filter acc f.1 f.2) rows

/-- The four concrete filters of lines 102-107 of the source. -/
def the_filters (s1 s2 s3 s4 : List String) :
    List ((FlatRow → Option String) × List String) :=
  [(FlatRow.province, s1), (FlatRow.commune, s2),
   (FlatRow.adresse, s3), (FlatRow.nameAgent, s4)]

/-- Line 120 of the source: the Sondage PVT column is the numeric
coercion of the transformed Sondage column. -/
def pvt_column (rows : List FlatRow) : List (Option ℚ) :=
  rows.map fun r => to_numeric_coerce r.sondageTransformed

/-- pandas Series.sum with its default skipna behaviour: missing values
contribute zero and the empty sum is zero. -/
def series_sum (xs : List (Option ℚ)) : ℚ :=
  xs.foldl (fun a x => a + x.getD 0) 0

/-- Line 123 of the source: the total price metric. -/
def total_price (rows : List FlatRow) : ℚ := series_sum (pvt_column rows)

/-- Line 124 of the source: the PDV count metric. -/
def num_rows (rows : List FlatRow) : ℕ := rows.length

/-- JSON value as returned by the Kobo API. -/
inductive Json where
  | null
  | str (s : String)
  | num (q : ℚ)
  | arr (xs : List Json)
  | obj (fields : List (String × Json))

/-- The Python exceptions that can arise around the fetch. -/
inductive PyExc where
  | timeout
  | connectionError
  | httpError (status : ℕ)
  | jsonDecodeError
  | keyError (k : String)

/-- Membership in requests.exceptions.RequestException.  Modelled from
the requests library, which the repository does not pin: since requests
2.27 the Timeout, ConnectionError and HTTPError classes and the
JSONDecodeError raised by response.json all subclass RequestException;
KeyError does not. -/
def is_request_exception : PyExc → Bool
  | .timeout => true
  | .connectionError => true
  | .httpError _ => true
  | .jsonDecodeError => true
  | .keyError _ => false

/-- Outcome of session.get after the retry adapter has run: a final
response with a status and a body (none standing for a body that is not
valid JSON), or a transport-level exception. -/
inductive GetOutcome where
  | response (status : ℕ) (body : Option Json)
  | timeoutExc
  | connectionExc

/-- response.raise_for_status: raises HTTPError on a 4xx or 5xx status. -/
def raise_for_status (status : ℕ) : Option PyExc :=
  if 400 ≤ status ∧ status ≤ 599 then some (.httpError status) else none

/-- response.json: the parsed body, or JSONDecodeError when the body is
not valid JSON. -/
def response_json : Option Json → Except PyExc Json
  | some j => .ok j
  | none => .error .jsonDecodeError

/-- The body of the try block in download_kobo_data (lines 27-29 of the
source): perform the request, raise for a bad status, parse the body. -/
def fetch_body : GetOutcome → Except PyExc Json
  | .timeoutExc => .error .timeout
  | .connectionExc => .error .connectionError
  | .response status body =>
    match raise_for_status status with
    | some e => .error e
    | none => response_json body

/-- Rendering of an exception, as interpolated into the error message. -/
def exc_text : PyExc → String
  | .timeout => "Timeout"
  | .connectionError => "ConnectionError"
  | .httpError s => "HTTPError " ++ toString s
  | .jsonDecodeError => "JSONDecodeError"
  | .keyError k => "KeyError " ++ k

/-- The user-visible message of line 31 of the source. -/
def transport_message (e : PyExc) : String :=
  "Error retrieving the data: " ++ exc_text e

/-- What download_kobo_data hands back: the parsed payload or none, plus
the error messages shown on the page. -/
structure FetchResult where
  data : Option Json
  messages : List String

/-- Lines 24-32 of the source: the try block runs; a RequestException is
caught, an error message is shown and None is returned; any other
exception escapes. -/
def download_kobo_data (g : GetOutcome) : Except PyExc FetchResult :=
  match fetch_body g with
  | .ok j => .ok ⟨some j, []⟩
  | .error e =>
    if is_request_exception e then .ok ⟨none, [transport_message e]⟩
    else .error e

/-- Python truthiness of a JSON value, for the guard on line 42. -/
def pyTruthy : Json → Bool
  | .null => false
  | .str s => decide (s ≠ "")
  | .num q => decide (q ≠ 0)
  | .arr xs => !xs.isEmpty
  | .obj fs => !fs.isEmpty

/-- Python dict subscription as on line 46 of the source: a missing key
or a non-object raises (modelled as a non-request exception). -/
def dict_get (j : Json) (k : String) : Except PyExc Json :=
  match j with
  | .obj fs =>
    match fs.lookup k with
    | some v => .ok v
    | none => .error (.keyError k)
  | _ => .error (.keyError k)

/-- The success banner of line 43 of the source. -/
def success_message : String := "KoboCollect data retrieved successfully!"

/-- The top of the script (lines 41-46): download, guard on truthiness of
the payload, extract the results array and flatten it.  The flattening
and rendering of the guarded block is abstracted as proc, since the claims
about this part concern only what reaches it and when. -/
def dashboard (g : GetOutcome) (proc : Json → List FlatRow) :
    Except PyExc (List String × Option (List FlatRow)) :=
  match download_kobo_data g with
  | .error e => .error e
  | .ok fr =>
    match fr.data with
    | none => .ok (fr.messages, none)
    | some j =>
      if pyTruthy j then
        match dict_get j "results" with
        | .error e => .error e
        | .ok results => .ok (fr.messages ++ [success_message], some (proc results))
      else .ok (fr.messages, none)

/-- A row whose timestamp is the last nanosecond of the epoch day. -/
def boundary_row : FlatRow :=
  { time := ns_per_day - 1, province := none, commune := none,
    adresse := none, nameAgent := none, sondageTransformed := none }

/-- Three rows whose Sondage PVT values are 10, missing, 20. -/
def sample_rows : List FlatRow :=
  [ { time := 0, province := none, commune := none, adresse := none,
      nameAgent := none, sondageTransformed := some (.str "10") },
    { time := 0, province := none, commune := none, adresse := none,
      nameAgent := none, sondageTransformed := none },
    { time := 0, province := none, commune := none, adresse := none,
      nameAgent := none, sondageTransformed := some (.str "20") } ]

/-- A results array with one record. -/
def sample_results : Json := Json.arr [Json.obj [("id", Json.num 1)]]

/-- A full response payload wrapping the results array. -/
def sample_body : Json := Json.obj [("results", sample_results)]

/-! Helper lemmas. -/

theorem series_sum_aux (xs : List (Option ℚ)) :
    ∀ a : ℚ, xs.foldl (fun a x => a + x.getD 0) a = a + (xs.filterMap id).sum := by
  induction xs with
  | nil => intro a; simp
  | cons x t ih =>
    intro a
    cases x with
    | none => simpa using ih a
    | some q => simp [ih, add_assoc]

/-- The pandas skipna sum equals the sum of the present values. -/
theorem series_sum_eq (xs : List (Option ℚ)) :
    series_sum xs = (xs.filterMap id).sum := by
  simpa using series_sum_aux xs 0

/-- Membership characterisation of one isin filter step. -/
theorem mem_isin_filter (rows : List FlatRow) (get : FlatRow → Option String)
    (sel : List String) (r : FlatRow) :
    r ∈ isin_filter rows get sel ↔
      r ∈ rows ∧ (sel ≠ [] → ∃ v, get r = some v ∧ v ∈ sel) := by
  cases sel with
  | nil => simp [isin_filter]
  | cons a t =>
    simp only [isin_filter, List.mem_filter]
    refine and_congr_right fun _ => ?_
    cases hg : get r with
    | none => simp [hg]
    | some v => simp [hg]

theorem isin_filter_sublist (rows : List FlatRow) (get : FlatRow → Option String)
    (sel : List String) : (isin_filter rows get sel).Sublist rows := by
  cases sel with
  | nil => exact List.Sublist.refl rows
  | cons a t => exact List.filter_sublist rows

theorem apply_categorical_filters_sublist (fs : List ((FlatRow → Option String) × List String)) :
    ∀ rows : List FlatRow, (apply_categorical_filters rows fs).Sublist rows := by
  induction fs with
  | nil => intro rows; exact List.Sublist.refl rows
  | cons f t ih =>
    intro rows
    exact (ih (isin_filter rows f.1 f.2)).trans (isin_filter_sublist rows f.1 f.2)

/-- Every exception the try block of download_kobo_data can raise is a
RequestException. -/
theorem fetch_body_error_is_request (g : GetOutcome) (e : PyExc)
    (h : fetch_body g = .error e) : is_request_exception e = true := by
  cases g with
  | timeoutExc => cases h; rfl
  | connectionExc => cases h; rfl
  | response status body =>
    simp only [fetch_body] at h
    cases hrs : raise_for_status status with
    | some e2 =>
      rw [hrs] at h
      cases h
      unfold raise_for_status at hrs
      by_cases hc : 400 ≤ status ∧ status ≤ 599
      · rw [if_pos hc] at hrs
        cases hrs
        rfl
      · rw [if_neg hc] at hrs
        cases hrs
    | none =>
      rw [hrs] at h
      cases body with
      | some j => cases h
      | none => cases h; rfl

/-- astype float succeeds on a row whose present cells all parse,
producing the parsed values. -/
theorem astype_float_row_ok (r : List (Option String))
    (h : ∀ c ∈ r, ∀ t, c = some t → (py_float? t).isSome = true) :
    astype_float_row r = .ok (r.map (fun c => c.bind py_float?)) := by
  induction r with
  | nil => rfl
  | cons c cs ih =>
    have hc := h c (List.mem_cons_self c cs)
    have hcs : ∀ c ∈ cs, ∀ t, c = some t → (py_float? t).isSome = true :=
      fun c hmem => h c (List.mem_cons_of_mem _ hmem)
    cases c with
    | none =>
      simp only [astype_float_row, astype_float_cell, ih hcs]
      rfl
    | some t =>
      obtain ⟨q, hq⟩ := Option.isSome_iff_exists.mp (hc t rfl)
      have hbind : ((some t).bind py_float?) = some q := hq
      simp only [astype_float_row, astype_float_cell, hq, ih hcs, List.map_cons, hbind]
      rfl

/-- astype float succeeds on a frame whose present cells all parse. -/
theorem astype_float_ok (m : List (List (Option String)))
    (h : ∀ r ∈ m, ∀ c ∈ r, ∀ t, c = some t → (py_float? t).isSome = true) :
    astype_float m = .ok (m.map (fun r => r.map (fun c => c.bind py_float?))) := by
  induction m with
  | nil => rfl
  | cons r rs ih =>
    have hr := h r (List.mem_cons_self r rs)
    have hrs : ∀ r ∈ rs, ∀ c ∈ r, ∀ t, c = some t → (py_float? t).isSome = true :=
      fun r hmem => h r (List.mem_cons_of_mem _ hmem)
    simp only [astype_float, astype_float_row_ok r hr, ih hrs]
    rfl

/-! Claim theorems. -/

/-- C1 counterexample: the code never splits the Sondage string
"Retail 10.5 3 31.5" into four columns; the transformed cell is the
whole unsplit string and its numeric coercion is null, so no column
carries the claimed TotalPrice value 31.5. -/
theorem c1_counterexample :
    sondage_transform (some (.str "Retail 10.5 3 31.5")) =
      some (.str "Retail 10.5 3 31.5") ∧
    to_numeric_coerce (sondage_transform (some (.str "Retail 10.5 3 31.5"))) = none ∧
    (none : Option ℚ) ≠ some (31.5 : ℚ) :=
  ⟨rfl, rfl, fun h => Option.noConfusion h⟩

/-- C1 amended: the Sondage column is not split; a list-valued cell is
joined with comma-space into one string, every other value passes through
unchanged, and the Sondage PVT column is the float coercion of the whole
transformed value, which is null for "Retail 10.5 3 31.5". -/
theorem c1_theorem :
    (∀ xs, sondage_transform (some (.list xs)) =
      some (.str (join_comma (xs.map pyStr)))) ∧
    (∀ s, sondage_transform (some (.str s)) = some (.str s)) ∧
    (∀ q, sondage_transform (some (.num q)) = some (.num q)) ∧
    sondage_transform none = none ∧
    sondage_transform (some (.str "Retail 10.5 3 31.5")) =
      some (.str "Retail 10.5 3 31.5") ∧
    to_numeric_coerce (sondage_transform (some (.str "Retail 10.5 3 31.5"))) = none :=
  ⟨fun _ => rfl, fun _ => rfl, fun _ => rfl, rfl, rfl, rfl⟩

/-- C3 counterexample: the row stamped at the last nanosecond of the end
day satisfies the claimed predicate (timestamp at most the last instant
of day d2) but the filter excludes it, because the bound actually used is
one full second below the end of the day. -/
theorem c3_counterexample :
    (0 : Int) ≤ boundary_row.time ∧ boundary_row.time ≤ end_of_day 0 ∧
    date_filter [boundary_row] 0 0 = [] :=
  ⟨by decide, by decide, rfl⟩

/-- C3 amended: the date filter keeps exactly the rows whose timestamp
lies between d1 and d2 plus one day minus one second, so timestamps in
the final second of day d2 after its second 23:59:59 are excluded. -/
theorem c3_theorem (rows : List FlatRow) (d1 d2 : Int) (r : FlatRow) :
    r ∈ date_filter rows d1 d2 ↔
      r ∈ rows ∧ d1 ≤ r.time ∧ r.time ≤ date2_upper d2 := by
  simp [date_filter, List.mem_filter, and_assoc]

/-- C5: a row survives the categorical filtering loop exactly when, for
every filter whose selection is non-empty, the row has a present value
for that field and the value is one of the selected ones; empty
selections restrict nothing and missing values never pass a non-empty
selection. -/
theorem c5_theorem (rows : List FlatRow)
    (fs : List ((FlatRow → Option String) × List String)) (r : FlatRow) :
    r ∈ apply_categorical_filters rows fs ↔
      r ∈ rows ∧ ∀ f ∈ fs, f.2 ≠ [] → ∃ v, f.1 r = some v ∧ v ∈ f.2 := by
  induction fs generalizing rows with
  | nil => simp [apply_categorical_filters]
  | cons f t ih =>
    have h1 : apply_categorical_filters rows (f :: t) =
        apply_categorical_filters (isin_filter rows f.1 f.2) t := rfl
    rw [h1, ih, mem_isin_filter, List.forall_mem_cons, and_assoc]

/-- C6: the analytics block reports the row count and the skipna sum of
the numeric PVT column, which equals the sum of the present values; on
the empty frame both metrics are zero, and on rows whose PVT values are
10, missing, 20 it reports count 3 and total 30. -/
theorem c6_theorem :
    (∀ rows : List FlatRow, num_rows rows = rows.length ∧
      total_price rows = ((pvt_column rows).filterMap id).sum) ∧
    (num_rows [] = 0 ∧ total_price [] = 0) ∧
    (num_rows sample_rows = 3 ∧ total_price sample_rows = 30) := by
  refine ⟨fun rows => ⟨rfl, series_sum_eq _⟩, ⟨rfl, rfl⟩, rfl, ?_⟩
  have h : total_price sample_rows = ((0 + (10 : ℚ)) + 0) + 20 := rfl
  rw [h]
  norm_num

/-- C10: the date filter followed by the categorical filtering loop is a
pure selection: the output is a sublist of the input, so every output row
is an unmodified input row, no row is duplicated, and the relative order
of surviving rows is preserved. -/
theorem c10_theorem (rows : List FlatRow) (d1 d2 : Int)
    (fs : List ((FlatRow → Option String) × List String)) :
    (apply_categorical_filters (date_filter rows d1 d2) fs).Sublist rows :=
  (apply_categorical_filters_sublist fs (date_filter rows d1 d2)).trans
    (List.filter_sublist rows)

/-- C2 counterexample: a GPS string with a non-numeric first token makes
the astype float conversion raise, failing the whole load rather than
leaving that one column null; and a GPS string with five tokens makes the
four-column assignment raise instead of ignoring the extra token. -/
theorem c2_counterexample :
    gps_assign ["abc 2.0 3.0 4.0"] =
      .error "could not convert string to float: abc" ∧
    gps_assign ["1 2 3 4 5"] = .error "Columns must be same length as key" :=
  ⟨rfl, rfl⟩

/-- C2 amended: when the widest GPS cell has exactly four tokens and
every token parses as a float, the split succeeds and each row is mapped
to Latitude, Longitude, Altitude, Other with its parsed tokens first and
nulls padding any missing trailing columns; a non-numeric token or a
token-matrix width other than four raises and fails the whole load. -/
theorem c2_theorem (col : List String)
    (hw : expand_width col = 4)
    (hnum : ∀ s ∈ col, ∀ t ∈ py_split_space s, (py_float? t).isSome = true) :
    gps_assign col = .ok ((token_rows col).map
      (fun ts => row4 ((pad_row 4 ts).map (fun c => c.bind py_float?)))) := by
  have hcells : ∀ r ∈ gps_split col, ∀ c ∈ r, ∀ t, c = some t →
      (py_float? t).isSome = true := by
    intro r hr c hc t hct
    simp only [gps_split, token_rows, List.map_map, List.mem_map,
      Function.comp] at hr
    obtain ⟨s, hs, rfl⟩ := hr
    subst hct
    simp only [pad_row, List.mem_append, List.mem_map, List.mem_replicate] at hc
    rcases hc with ⟨u, hu, hus⟩ | ⟨-, hnone⟩
    · cases hus
      exact hnum s hs t hu
    · cases hnone
  unfold gps_assign
  rw [astype_float_ok (gps_split col) hcells]
  show (if expand_width col = 4 then _ else _) = _
  rw [if_pos hw]
  simp only [gps_split, hw, List.map_map, Function.comp, pure, token_rows]
  rfl

/-- C2 witness: a well-formed two-row GPS column, the second row having
only two tokens, is split with nulls in its trailing columns. -/
theorem c2_witness :
    expand_width ["1 2 3 4", "5 6"] = 4 ∧
    (∀ s ∈ ["1 2 3 4", "5 6"], ∀ t ∈ py_split_space s,
      (py_float? t).isSome = true) ∧
    gps_assign ["1 2 3 4", "5 6"] =
      .ok [(some 1, some 2, some 3, some 4), (some 5, some 6, none, none)] :=
  ⟨rfl, by decide, by
    have h := c2_theorem ["1 2 3 4", "5 6"] rfl (by decide)
    exact h.trans rfl⟩

/-- C4 counterexample: an unparseable submission time is not reported and
excluded; the to_datetime conversion raises on it and the whole load
aborts, while a well-formed column converts normally. -/
theorem c4_counterexample :
    parse_timestamp "not-a-date" = none ∧
    to_datetime_col ["2024-01-01T00:00:00", "not-a-date"] = .error "not-a-date" ∧
    to_datetime_col ["2024-01-01T00:00:00"] = .ok [1704067200000000000] :=
  ⟨rfl, rfl, rfl⟩

/-- C4 amended: whenever the submission time column contains an entry
that does not parse, the to_datetime conversion of line 84, whose default
error policy is raise, aborts the pipeline with an error instead of
reporting the entry and excluding only that row. -/
theorem c4_theorem (col : List String) (s : String) (hs : s ∈ col)
    (hp : parse_timestamp s = none) :
    ∃ e, to_datetime_col col = .error e := by
  induction col with
  | nil => cases hs
  | cons a t ih =>
    rcases List.mem_cons.mp hs with rfl | hmem
    · exact ⟨s, by simp [to_datetime_col, hp]⟩
    · cases hpa : parse_timestamp a with
      | none => exact ⟨a, by simp [to_datetime_col, hpa]⟩
      | some v =>
        obtain ⟨e, he⟩ := ih hmem
        exact ⟨e, by simp [to_datetime_col, hpa, he, Except.map]⟩

/-- C4 witness: the column containing only the unparseable entry aborts. -/
theorem c4_witness :
    ("not-a-date" ∈ ["not-a-date"]) ∧ parse_timestamp "not-a-date" = none ∧
    ∃ e, to_datetime_col ["not-a-date"] = .error e :=
  ⟨List.mem_singleton.mpr rfl, rfl,
    c4_theorem ["not-a-date"] "not-a-date" (List.mem_singleton.mpr rfl) rfl⟩

/-- C7: when the try block fails with any transport-level exception, the
fetcher surfaces the user-visible error message and returns None, and the
guarded pipeline produces no row list at all: downstream processing is
skipped entirely, so no partially populated row list can be observed. -/
theorem c7_theorem (g : GetOutcome) (e : PyExc) (proc : Json → List FlatRow)
    (h : fetch_body g = .error e) :
    download_kobo_data g = .ok ⟨none, [transport_message e]⟩ ∧
    dashboard g proc = .ok ([transport_message e], none) := by
  have hreq := fetch_body_error_is_request g e h
  have hdl : download_kobo_data g = .ok ⟨none, [transport_message e]⟩ := by
    simp [download_kobo_data, h, hreq]
  exact ⟨hdl, by simp [dashboard, hdl]⟩

/-- C7 witness: a timeout surfaces its message and yields no rows. -/
theorem c7_witness :
    fetch_body GetOutcome.timeoutExc = .error PyExc.timeout ∧
    download_kobo_data GetOutcome.timeoutExc =
      .ok ⟨none, [transport_message PyExc.timeout]⟩ ∧
    dashboard GetOutcome.timeoutExc (fun _ => []) =
      .ok ([transport_message PyExc.timeout], none) :=
  ⟨rfl, (c7_theorem GetOutcome.timeoutExc PyExc.timeout (fun _ => []) rfl).1,
    (c7_theorem GetOutcome.timeoutExc PyExc.timeout (fun _ => []) rfl).2⟩

/-- C8 counterexample: on a successful fetch the fetcher returns the
enclosing JSON object itself, which is not the results array it
contains. -/
theorem c8_counterexample :
    download_kobo_data (.response 200 (some sample_body)) =
      .ok ⟨some sample_body, []⟩ ∧
    sample_body ≠ sample_results :=
  ⟨rfl, fun h => Json.noConfusion h⟩

/-- C8 amended: on a successful fetch the fetcher returns the full parsed
JSON object; the caller then extracts the results member itself (line 46)
and only that array reaches the flattening step. -/
theorem c8_theorem (j results : Json) (proc : Json → List FlatRow)
    (hres : dict_get j "results" = .ok results) (ht : pyTruthy j = true) :
    download_kobo_data (.response 200 (some j)) = .ok ⟨some j, []⟩ ∧
    dashboard (.response 200 (some j)) proc =
      .ok ([success_message], some (proc results)) := by
  have hdl : download_kobo_data (.response 200 (some j)) = .ok ⟨some j, []⟩ := rfl
  refine ⟨hdl, ?_⟩
  simp [dashboard, hdl, ht, hres]

/-- C8 witness: the sample payload is fetched whole and its results
array is what gets processed. -/
theorem c8_witness :
    dict_get sample_body "results" = .ok sample_results ∧
    pyTruthy sample_body = true ∧
    dashboard (.response 200 (some sample_body)) (fun _ => []) =
      .ok ([success_message], some []) :=
  ⟨rfl, rfl,
    (c8_theorem sample_body sample_results (fun _ => []) rfl rfl).2⟩

/-- C9 counterexample: a success-status response whose body is not valid
JSON does not raise out of download_kobo_data: the JSON decoding error is
a RequestException (requests 2.27 and later), so it is caught, the error
message is shown and None is returned. -/
theorem c9_counterexample :
    download_kobo_data (.response 200 none) =
      .ok ⟨none, [transport_message PyExc.jsonDecodeError]⟩ ∧
    ∀ e, download_kobo_data (.response 200 none) ≠ .error e :=
  ⟨rfl, fun _ h => Except.noConfusion h⟩

/-- C9 amended: download_kobo_data never lets an exception escape: every
failure of its try block, the JSON decoding failure of a success-status
response included, is caught by the RequestException handler, and
whenever None is returned an error message has been shown. -/
theorem c9_theorem (g : GetOutcome) :
    ∃ fr : FetchResult, download_kobo_data g = .ok fr ∧
      (fr.data = none → fr.messages ≠ []) := by
  cases hfb : fetch_body g with
  | ok j =>
    refine ⟨⟨some j, []⟩, by simp [download_kobo_data, hfb], ?_⟩
    exact fun hd => Option.noConfusion hd
  | error e =>
    have hreq := fetch_body_error_is_request g e hfb
    refine ⟨⟨none, [transport_message e]⟩, by simp [download_kobo_data, hfb, hreq], ?_⟩
    intro _
    simp

end Unilever
